import Mathlib

/-!
Verification of the Model Provider Abstraction & Streaming Response Engine.

This file is a shallow embedding, in Lean 4, of the core of the
`bedrock-api-code` repository:

* `src/api/models/kb_model_config.py` — model identifier parsing, family
  classification, configuration resolution (`KBModelConfigs.get_config`,
  `KBModelConfig.update_from_settings`);
* `src/utils/kb_utils.py` — provider request building and response text
  extraction (`KBUtils._prepare_request_body`, `KBUtils._extract_generated_text`);
* `src/temp_docs_src/utils/kb_metrics.py` — token usage and cost estimation
  (`KBCostMetrics.estimate_tokens`, `calculate_cost`, `get_token_usage`);
* `src/services/query_service.py` — the streaming chunker with citation
  mapping and cost reporting (`QueryService.stream_generate`).

Modelling conventions:

* Python `float` arithmetic is modelled by exact rational arithmetic (`ℚ`).
  All float literals appearing in the source (`0.0001`, `0.0003`, `0.3`, …)
  are decimal literals, and the concrete values exercised by the theorems
  round-trip exactly through `Decimal(str(value))`, so the rational model
  agrees with the Python behaviour at every input evaluated here.
* JSON values (provider response bodies) are modelled by the inductive
  `Json` below.  JSON numbers are modelled as integers; the response
  fields read by the embedded functions (token counts, span offsets,
  page numbers) are integral in every layout the code probes.
* `boto3` / network calls are inputs: the result of the single external
  invocation is passed to `streamGenerate` as an `Except String Json`
  (`.error` models a raised exception, carrying its message).
* Python exceptions are modelled with `Except`; `try/except` blocks become
  `match` on the `Except` value.
-/

set_option maxRecDepth 2000

/-- `s[i:j]` on lists (for `0 ≤ i ≤ j`): Python slicing with clamping. -/
def pySlice {α : Type} (xs : List α) (i j : Nat) : List α :=
  (xs.drop i).take (j - i)

/-- Does `pre` occur at the head of `hay`? -/
def listStartsWith : List Char → List Char → Bool
  | _, [] => true
  | [], _ :: _ => false
  | h :: t, p :: ps => h == p && listStartsWith t ps

/-- Leftmost-match regex search for `needle(followed by...)`: true iff some
position of `hay` starts with `needle` and the tail after it satisfies
`follow`.  Used to model `re.search` of the family patterns. -/
def occursWithFollow (needle : List Char) (follow : List Char → Bool) : List Char → Bool
  | [] => false
  | c :: t =>
    (listStartsWith (c :: t) needle && follow ((c :: t).drop needle.length)) ||
      occursWithFollow needle follow t

/-- Plain substring containment (`re.search` of a literal pattern,
or Python `needle in hay`). -/
def containsSub (needle hay : List Char) : Bool :=
  occursWithFollow needle (fun _ => true) hay

/-- `sorted(list(set(xs)))`: ascending list of the distinct elements. -/
def sortDedup (xs : List Int) : List Int :=
  (xs.dedup).insertionSort (· ≤ ·)

/-- JSON-ish dynamic values, the shape of provider response bodies.
Objects are association lists in insertion order, as Python dicts. -/
inductive Json where
  | null : Json
  | bool : Bool → Json
  | int : Int → Json
  | num : ℚ → Json
  | str : String → Json
  | arr : List Json → Json
  | obj : List (String × Json) → Json
deriving Inhabited

namespace Json

/-- Key lookup in an object; `none` when the value is not an object or the
key is absent.  Models `dict` subscripting after a containment check. -/
def lookup (j : Json) (k : String) : Option Json :=
  match j with
  | .obj kvs => kvs.lookup k
  | _ => none

/-- `k in d` for a dict `d` (key membership). -/
def hasKey (j : Json) (k : String) : Bool :=
  match j.lookup k with
  | some _ => true
  | none => false

/-- Python truthiness of a JSON value (`if x:`). -/
def pyTruthy : Json → Bool
  | .null => false
  | .bool b => b
  | .int n => n != 0
  | .num q => !(q == 0)
  | .str s => !(s == "")
  | .arr xs => !xs.isEmpty
  | .obj kvs => !kvs.isEmpty

/-- `d[k]` — raises `KeyError`/`TypeError` when not a dict or key missing. -/
def pyGetItem (j : Json) (k : String) : Except String Json :=
  match j with
  | .obj kvs =>
    match kvs.lookup k with
    | some v => .ok v
    | none => .error ("KeyError: " ++ k)
  | _ => .error "TypeError: not subscriptable by str"

/-- `d.get(k, default)` — raises `AttributeError` when `d` is not a dict. -/
def pyGetD (j : Json) (k : String) (dflt : Json) : Except String Json :=
  match j with
  | .obj kvs => .ok ((kvs.lookup k).getD dflt)
  | _ => .error "AttributeError: no attribute get"

/-- `k in x` for string key `k`: dict key membership, substring test on
strings, element membership on lists, `TypeError` otherwise. -/
def pyInKey (k : String) (j : Json) : Except String Bool :=
  match j with
  | .obj kvs => .ok (match kvs.lookup k with | some _ => true | none => false)
  | .str s => .ok (containsSub k.toList s.toList)
  | .arr xs => .ok (xs.any (fun x => match x with | .str s => s == k | _ => false))
  | _ => .error "TypeError: argument not iterable"

/-- Coerce a JSON value to an integer, with a default used where the
Python code would only ever see integers on the probed paths. -/
def toIntD (j : Json) (dflt : Int) : Int :=
  match j with
  | .int n => n
  | .bool b => if b then 1 else 0
  | _ => dflt

end Json

section ModelConfig

/-- `ModelProvider` enumeration (`kb_model_config.py`). -/
inductive ModelProvider where
  | amazon | anthropic | cohere | meta | mistral | stability | ai21 | unknown
deriving Repr, BEq, DecidableEq, Inhabited

/-- `.value` of each `ModelProvider` member. -/
def ModelProvider.value : ModelProvider → String
  | .amazon => "amazon"
  | .anthropic => "anthropic"
  | .cohere => "cohere"
  | .meta => "meta"
  | .mistral => "mistral"
  | .stability => "stability"
  | .ai21 => "ai21"
  | .unknown => "unknown"

/-- `ModelProvider(x)` — enum construction from a string, `none` models the
`ValueError` branch. -/
def providerOfString (s : String) : Option ModelProvider :=
  if s = "amazon" then some .amazon
  else if s = "anthropic" then some .anthropic
  else if s = "cohere" then some .cohere
  else if s = "meta" then some .meta
  else if s = "mistral" then some .mistral
  else if s = "stability" then some .stability
  else if s = "ai21" then some .ai21
  else none

/-- `KBModelPricing` — $ per 1000 tokens. -/
structure KBModelPricing where
  input_cost : ℚ
  output_cost : ℚ
deriving Repr, DecidableEq, Inhabited

/-- `GuardrailSettings` (pydantic model with string defaults). -/
structure GuardrailSettings where
  guardrailIdentifier : String := "e1xjb1vcaxah"
  guardrailVersion : String := "DRAFT"
deriving Repr, DecidableEq, Inhabited

/-- `GenerationSettings` (pydantic model, `api/models/models.py`).  A field
the caller omits is filled with the pydantic default at construction, so
the record does not remember which fields were explicitly set. -/
structure GenerationSettings where
  temperature : ℚ := 2/10
  top_p : ℚ := 999/1000
  top_k : Nat := 250
  max_tokens : Nat := 2048
  stop_sequences : Option (List String) := none
  guardrails : Option GuardrailSettings := none
deriving Repr, DecidableEq, Inhabited

/-- The defaults pydantic fills in when the caller supplies no field. -/
def defaultGenerationSettings : GenerationSettings := {}

/-- `KBModelConfig` — canonical per-request model configuration.
`stop_sequences` is an `Option` because `update_from_settings` can store
`None` into the attribute (the constructor itself normalises `None` to `[]`). -/
structure KBModelConfig where
  model_id : String
  provider : ModelProvider
  max_tokens : Nat
  temperature : ℚ
  top_p : ℚ
  top_k : Nat
  stop_sequences : Option (List String)
  supports_query_decomposition : Bool
  pricing : KBModelPricing
  guardrails : GuardrailSettings
deriving Repr, DecidableEq, Inhabited

/-- The `KBModelConfig.__init__` defaulting: `stop_sequences or []`,
`pricing or KBModelPricing(0.0001, 0.0003)`, `guardrails or GuardrailSettings()`. -/
def mkKBModelConfig (model_id : String) (provider : ModelProvider)
    (max_tokens : Nat := 2048) (temperature : ℚ := 2/10) (top_p : ℚ := 999/1000)
    (top_k : Nat := 250) (stop_sequences : Option (List String) := none)
    (supports_query_decomposition : Bool := false)
    (pricing : Option KBModelPricing := none)
    (guardrails : Option GuardrailSettings := none) : KBModelConfig :=
  { model_id := model_id
    provider := provider
    max_tokens := max_tokens
    temperature := temperature
    top_p := top_p
    top_k := top_k
    stop_sequences := some (stop_sequences.getD [])
    supports_query_decomposition := supports_query_decomposition
    pricing := pricing.getD ⟨1/10000, 3/10000⟩
    guardrails := guardrails.getD {} }

/-- `KBModelConfig.update_from_settings` — copies every field of the
settings object onto the config unconditionally; only `guardrails` keeps
the old value when the settings carry `None` (`settings.guardrails or
self.guardrails`). -/
def KBModelConfig.update_from_settings (c : KBModelConfig) (s : GenerationSettings) :
    KBModelConfig :=
  { c with
    temperature := s.temperature
    top_p := s.top_p
    top_k := s.top_k
    max_tokens := s.max_tokens
    stop_sequences := s.stop_sequences
    guardrails := (s.guardrails.getD c.guardrails) }

end ModelConfig

section Identifier

/-- Character class `[a-zA-Z0-9\-\.]` of the model-name pattern. -/
def isNameChar (c : Char) : Bool :=
  (('a' ≤ c && c ≤ 'z') || ('A' ≤ c && c ≤ 'Z') || ('0' ≤ c && c ≤ '9')
    || c == '-' || c == '.')

def isAsciiDigit (c : Char) : Bool := '0' ≤ c && c ≤ '9'

/-- Attempt the tail of `re.match(r"(.+?:\d+):(\d+[kKmM]?)$", s)` at a fixed
position: `accRev` is the (reversed, nonempty) text already consumed by the
lazy `.+?`, `rest` the input after the candidate `':'`.  The first `\d+` is
greedy and must be followed by `':'` (shrinking it can never expose a `':'`),
the second `\d+` is greedy and must be followed by the optional `[kKmM]`
and then the end of the string.  On success, returns
`(group 1, group 2) = (base_arn, token_count)`. -/
def tryArnSplitAt (accRev : List Char) (rest : List Char) :
    Option (List Char × List Char) :=
  let d1 := rest.takeWhile isAsciiDigit
  let r1 := rest.drop d1.length
  if d1.isEmpty then none
  else
    match r1 with
    | [] => none
    | c2 :: r2 =>
      if c2 == ':' then
        let d2 := r2.takeWhile isAsciiDigit
        let r3 := r2.drop d2.length
        if d2.isEmpty then none
        else
          match r3 with
          | [] => some (accRev.reverse ++ ':' :: d1, d2)
          | [k] =>
            if k == 'k' || k == 'K' || k == 'm' || k == 'M' then
              some (accRev.reverse ++ ':' :: d1, d2 ++ [k])
            else none
          | _ => none
      else none

/-- The scan of `re.match(r"(.+?:\d+):(\d+[kKmM]?)$", s)`: the lazy `.+?`
grows one character at a time (`.` does not match a newline, so the scan
stops at the first `'\n'`); at each `':'` with a nonempty prefix the rest of
the pattern is attempted. -/
def parseArnAux : List Char → List Char → Option (List Char × List Char)
  | _, [] => none
  | accRev, c :: rest =>
    match (if !accRev.isEmpty && c == ':' then tryArnSplitAt accRev rest else none) with
    | some r => some r
    | none => if c == '\n' then none else parseArnAux (c :: accRev) rest

/-- `ModelIdentifier._parse_arn`: split the reference into base reference and
context-window suffix; no match leaves the whole reference as the base. -/
def parseArn (s : List Char) : List Char × List Char :=
  match parseArnAux [] s with
  | some r => r
  | none => (s, [])

/-- `re.search(r"foundation-model/([a-zA-Z0-9\-\.]+)", base)`: leftmost
occurrence of the marker followed by at least one name character; the group
is the greedy run of name characters. -/
def findModelName : List Char → Option (List Char)
  | [] => none
  | c :: t =>
    if listStartsWith (c :: t) "foundation-model/".toList then
      let rest := (c :: t).drop "foundation-model/".toList.length
      let run := rest.takeWhile isNameChar
      if run.isEmpty then findModelName t else some run
    else findModelName t

/-- `ModelIdentifier._extract_model_name`. -/
def extractModelName (base : List Char) : String :=
  match findModelName base with
  | some run => String.mk run
  | none => "unknown"

/-- `re.search(r"foundation-model/([^\.]+)\.", base)`: leftmost occurrence of
the marker followed by a nonempty run of non-dot characters and then a
literal dot; the group is that run (the greedy `[^\.]+` stops exactly at the
first dot, and shrinking it can never expose one). -/
def findProviderToken : List Char → Option (List Char)
  | [] => none
  | c :: t =>
    if listStartsWith (c :: t) "foundation-model/".toList then
      let rest := (c :: t).drop "foundation-model/".toList.length
      let run := rest.takeWhile (fun c => !(c == '.'))
      if run.isEmpty then findProviderToken t
      else
        match rest.drop run.length with
        | '.' :: _ => some run
        | _ => findProviderToken t
    else findProviderToken t

/-- `ModelIdentifier._determine_provider`: the provider token is matched
case-insensitively against the enumeration; failure gives `UNKNOWN`. -/
def determineProvider (base : List Char) : ModelProvider :=
  match findProviderToken base with
  | some run =>
    match providerOfString (String.mk (run.map Char.toLower)) with
    | some p => p
    | none => .unknown
  | none => .unknown

/-- `ModelIdentifier` — parsed form of a model reference. -/
structure ModelIdentifier where
  original_arn : String
  base_arn : List Char
  token_count : List Char
  model_name : String
  provider : ModelProvider
deriving Repr, DecidableEq, Inhabited

/-- `ModelIdentifier.__init__`. -/
def mkModelIdentifier (arn : String) : ModelIdentifier :=
  let (base, tok) := parseArn arn.toList
  { original_arn := arn
    base_arn := base
    token_count := tok
    model_name := extractModelName base
    provider := determineProvider base }

end Identifier

section FamilyMapper

/-- `follow` predicate: at least `n` ASCII digits ahead (`\d{n}` under
`re.search`, where extra digits after the required ones are harmless). -/
def digitsAtLeast (n : Nat) (rest : List Char) : Bool :=
  n ≤ (rest.takeWhile isAsciiDigit).length

/-- `ModelFamilyMapper._FAMILY_PATTERNS`, evaluated in insertion order with
first match winning (`ModelFamilyMapper.get_family`).  Each regex is
translated to its search semantics:

* a literal pattern is a substring test;
* `pat\d` / `pat\d{n}` require the literal followed by enough digits;
* `claude-v2(?::\d+)?` matches wherever the mandatory part `claude-v2` does;
* `command-r(?!-plus)` needs an occurrence of `command-r` not followed by
  `-plus`;
* `llama3-\d+b` needs `llama3-`, a nonempty greedy digit run, then `b`
  (shrinking the run can never expose a `b`). -/
def getFamily (model_name : String) : String :=
  let n := model_name.toList.map (fun c => if Char.toLower c == '_' then '-' else Char.toLower c)
  if containsSub "titan-text-premier".toList n then "titan-text-g1-premier"
  else if containsSub "nova-pro".toList n then "nova-pro"
  else if containsSub "nova-lite".toList n then "nova-lite"
  else if containsSub "nova-micro".toList n then "nova-micro"
  else if occursWithFollow "titan-embed-text-v".toList (digitsAtLeast 1) n then "titan-embed-text"
  else if occursWithFollow "titan-embed-image-v".toList (digitsAtLeast 1) n then "titan-embed-image"
  else if occursWithFollow "claude-instant-v".toList (digitsAtLeast 1) n then "claude-instant"
  else if containsSub "claude-v2".toList n then "claude-v2"
  else if occursWithFollow "claude-3-sonnet-".toList (digitsAtLeast 8) n then "claude-3-sonnet"
  else if occursWithFollow "claude-3-haiku-".toList (digitsAtLeast 8) n then "claude-3-haiku"
  else if occursWithFollow "claude-3.5-sonnet-".toList (digitsAtLeast 8) n then "claude-3.5-sonnet"
  else if occursWithFollow "claude-3-5-sonnet-".toList (digitsAtLeast 8) n then "claude-3.5-sonnet"
  else if containsSub "command-r-plus".toList n then "command-r-plus"
  else if occursWithFollow "command-r".toList
      (fun rest => !listStartsWith rest "-plus".toList) n then "command-r"
  else if containsSub "command-light".toList n then "command-light"
  else if containsSub "llama3-70b".toList n then "llama-3-70b-instruct"
  else if occursWithFollow "llama3-".toList
      (fun rest =>
        let run := rest.takeWhile isAsciiDigit
        !run.isEmpty && listStartsWith (rest.drop run.length) ['b']) n then "llama-3-other"
  else if occursWithFollow "mistral-large-".toList (digitsAtLeast 4) n then "mistral-large"
  else if occursWithFollow "mistral-small-".toList (digitsAtLeast 4) n then "mistral-small"
  else if containsSub "mixtral-8x7b".toList n then "mixtral"
  else "unknown"

end FamilyMapper

section Resolver

/-- The process-wide class-level state of `KBModelConfigs`: the
`DEFAULT_CONFIG` object and the `_modelPricingTable` table.  Although the Python
objects are technically mutable, the core only ever reads them; making them
an explicit state parameter lets the no-shared-mutation claim be stated. -/
structure CoreGlobals where
  defaultConfig : KBModelConfig
  modelPricing : List (String × KBModelPricing)
deriving Repr, DecidableEq, Inhabited

/-- `KBModelConfigs.DEFAULT_CONFIG`. -/
def DEFAULT_CONFIG : KBModelConfig :=
  mkKBModelConfig "unknown" .unknown 2048 (2/10) (999/1000) 250 none false
    (some ⟨1/10000, 3/10000⟩) (some {})

/-- `KBModelConfigs._modelPricingTable` (insertion order preserved; named
`modelPricingTable` here because an identifier starting with `MOD` cannot
follow `[` in Lean). -/
def modelPricingTable : List (String × KBModelPricing) :=
  [("titan-text-g1-premier", ⟨8/10000, 16/10000⟩),
   ("nova-pro", ⟨125/100000, 375/100000⟩),
   ("nova-lite", ⟨3/10000, 9/10000⟩),
   ("nova-micro", ⟨1/10000, 3/10000⟩),
   ("claude-instant", ⟨80/100000, 240/100000⟩),
   ("claude-v2", ⟨800/100000, 2400/100000⟩),
   ("claude-3-sonnet", ⟨300/100000, 900/100000⟩),
   ("claude-3-haiku", ⟨25/100000, 75/100000⟩),
   ("claude-3.5-sonnet", ⟨300/100000, 900/100000⟩),
   ("command-r", ⟨15/100000, 20/100000⟩),
   ("command-r-plus", ⟨300/100000, 600/100000⟩),
   ("llama-3-70b-instruct", ⟨70/100000, 90/100000⟩),
   ("mistral-large", ⟨250/100000, 750/100000⟩),
   ("mistral-small", ⟨30/100000, 90/100000⟩)]

/-- The state of the process at startup. -/
def theGlobals : CoreGlobals := ⟨DEFAULT_CONFIG, modelPricingTable⟩

/-- The local `token_limits` dict of `KBModelConfigs._get_max_tokens`, as a
lookup function with `DEFAULT_CONFIG.max_tokens` as the `.get` default. -/
def tokenLimits (g : CoreGlobals) (model_family : String) : Nat :=
  if model_family = "claude-3-sonnet" then 200000
  else if model_family = "claude-3-haiku" then 200000
  else if model_family = "claude-3.5-sonnet" then 4096
  else if model_family = "mistral-large" then 8192
  else if model_family = "mistral-small" then 8192
  else g.defaultConfig.max_tokens

/-- `KBModelConfigs._get_max_tokens`. -/
def getMaxTokens (g : CoreGlobals) (identifier : ModelIdentifier) : Nat :=
  tokenLimits g (getFamily identifier.model_name)

/-- The membership test of `KBModelConfigs._supports_decomposition`
(`model_family in ["claude-3-sonnet", "claude-3-haiku", "claude-3.5-sonnet"]`). -/
def decompositionSupported (model_family : String) : Bool :=
  model_family = "claude-3-sonnet" || model_family = "claude-3-haiku"
    || model_family = "claude-3.5-sonnet"

/-- `KBModelConfigs._supports_decomposition`. -/
def supportsDecomposition (identifier : ModelIdentifier) : Bool :=
  decompositionSupported (getFamily identifier.model_name)

/-- Whether `KBModelConfigs.get_config` returned a fresh object or the
shared `DEFAULT_CONFIG` object (the `except` branch). -/
inductive ConfigSource where
  | fresh | sharedDefault
deriving Repr, DecidableEq, Inhabited

/-- `KBModelConfigs.get_config`, with the aliasing made explicit.  The
`except` branch would return `(g.defaultConfig, .sharedDefault)`, but every
step of the body is total on strings (the regex scans and dict lookups
cannot raise), so the function always reaches the `return` with a freshly
constructed config. -/
def getConfigSrc (g : CoreGlobals) (model_arn : String) :
    KBModelConfig × ConfigSource :=
  let identifier := mkModelIdentifier model_arn
  let model_family := getFamily identifier.model_name
  -- `cls._modelPricingTable.get(model_family, cls.DEFAULT_CONFIG.pricing)`
  let pricing := (g.modelPricing.lookup model_family).getD g.defaultConfig.pricing
  (mkKBModelConfig identifier.model_name identifier.provider
    (getMaxTokens g identifier) g.defaultConfig.temperature g.defaultConfig.top_p
    250 none (supportsDecomposition identifier) (some pricing) none, .fresh)

/-- `KBModelConfigs.get_config` as used throughout the codebase. -/
def getConfig (model_arn : String) : KBModelConfig :=
  (getConfigSrc theGlobals model_arn).1

end Resolver

section Adapter

/-- `KBUtils._prepare_request_body`, parametrised over the class-level
state.  Returns the provider request body together with the (possibly
updated) globals: if `get_config` had returned the shared `DEFAULT_CONFIG`
object, `update_from_settings` would mutate it through the alias; since the
config is always fresh, the globals come back unchanged.  The `except`
wrapper (HTTP 400) is kept in the type even though no step of the body can
raise. -/
def prepareRequestBodyG (g : CoreGlobals) (prompt : String)
    (settings : Option GenerationSettings) (model_arn : String) :
    Except String Json × CoreGlobals :=
  let (model_config0, src) := getConfigSrc g model_arn
  -- `if settings: model_config.update_from_settings(settings)`
  let model_config :=
    match settings with
    | some s => model_config0.update_from_settings s
    | none => model_config0
  let g' :=
    match src with
    | .sharedDefault =>
      (match settings with
       | some _ => { g with defaultConfig := model_config }
       | none => g)
    | .fresh => g
  let stops : Json :=
    match model_config.stop_sequences with
    | some l => .arr (l.map .str)
    | none => .null
  let body : Json :=
    if model_config.provider == .anthropic then
      .obj [("anthropic_version", .str "bedrock-2023-05-31"),
            ("messages", .arr [.obj [("role", .str "user"), ("content", .str prompt)]]),
            ("temperature", .num model_config.temperature),
            ("top_p", .num model_config.top_p),
            ("top_k", .int model_config.top_k),
            ("max_tokens", .int model_config.max_tokens),
            ("stop_sequences", stops)]
    else if model_config.provider == .meta then
      .obj [("prompt", .str prompt), ("temperature", .num model_config.temperature),
            ("top_p", .num model_config.top_p), ("max_tokens", .int model_config.max_tokens),
            ("stop_sequences", stops)]
    else if model_config.provider == .cohere then
      .obj [("message", .str prompt), ("temperature", .num model_config.temperature),
            ("p", .num model_config.top_p), ("k", .int model_config.top_k),
            ("max_tokens", .int model_config.max_tokens), ("stop_sequences", stops)]
    else if model_config.provider == .mistral then
      .obj [("inputs", .str prompt),
            ("parameters", .obj [("temperature", .num model_config.temperature), ("top_p", .num model_config.top_p),
              ("max_tokens", .int model_config.max_tokens), ("stop", stops)])]
    else if model_config.provider == .amazon then
      let model_family := getFamily model_config.model_id
      if containsSub "nova".toList model_family.toList then
        .obj [("messages", .arr [.obj [("role", .str "user"),
                ("content", .arr [.obj [("text", .str prompt)]])]]),
              ("temperature", .num model_config.temperature), ("top_p", .num model_config.top_p),
              ("max_tokens", .int model_config.max_tokens), ("stop", stops)]
      else
        .obj [("inputText", .str prompt),
              ("textGenerationConfig", .obj [("maxTokenCount", .int model_config.max_tokens),
                ("temperature", .num model_config.temperature), ("topP", .num model_config.top_p),
                ("topK", .int model_config.top_k), ("stopSequences", stops)])]
    else
      .obj [("prompt", .str prompt), ("temperature", .num model_config.temperature),
            ("top_p", .num model_config.top_p), ("top_k", .int model_config.top_k),
            ("max_tokens", .int model_config.max_tokens), ("stop_sequences", stops)]
  (.ok body, g')

/-- `KBUtils._prepare_request_body` against the process globals. -/
def prepareRequestBody (prompt : String) (settings : Option GenerationSettings)
    (model_arn : String) : Except String Json :=
  (prepareRequestBodyG theGlobals prompt settings model_arn).1

/-- `KBUtils._extract_generated_text`: provider-dispatched response text
extraction.  `.error` models the `except` branch (HTTP 500) reached when
the Python body raises (`KeyError` / `IndexError` / `TypeError` /
`AttributeError`); the `.get`-with-default reads return `.ok` even when the
expected field is absent. -/
def extractGeneratedText (response_body : Json) (model_config : KBModelConfig) :
    Except String Json :=
  if model_config.provider == .anthropic then
    -- response_body["content"][0]["text"]
    match response_body.pyGetItem "content" with
    | .error e => .error e
    | .ok content =>
      match content with
      | .arr (x :: _) => x.pyGetItem "text"
      | .arr [] => .error "IndexError"
      | _ => .error "TypeError: not subscriptable by int"
  else if model_config.provider == .meta then
    response_body.pyGetD "generation" (.str "")
  else if model_config.provider == .cohere then
    response_body.pyGetD "text" (.str "")
  else if model_config.provider == .amazon then
    let model_family := getFamily model_config.model_id
    if containsSub "nova".toList model_family.toList then
      match response_body.pyGetItem "output" with
      | .error e => .error e
      | .ok output =>
        match output.pyGetD "message" (.obj []) with
        | .error e => .error e
        | .ok message =>
          match message.pyGetD "content" (.arr []) with
          | .error e => .error e
          | .ok content =>
            match content with
            | .arr (x :: _) => x.pyGetItem "text"
            | .arr [] => .ok (.str "")
            | j => if j.pyTruthy then .error "TypeError" else .ok (.str "")
    else
      match response_body.pyGetD "results" (.arr [.obj []]) with
      | .error e => .error e
      | .ok results =>
        match results with
        | .arr (x :: _) => x.pyGetD "outputText" (.str "")
        | .arr [] => .error "IndexError"
        | _ => .error "TypeError: not subscriptable by int"
  else if model_config.provider == .mistral then
    -- if "outputs" in response_body and response_body["outputs"]: …[0].get("text","").strip()
    match response_body with
    | .obj kvs =>
      match kvs.lookup "outputs" with
      | some outputs =>
        if outputs.pyTruthy then
          match outputs with
          | .arr (x :: _) =>
            (match x.pyGetD "text" (.str "") with
             | .error e => .error e
             | .ok (.str s) => .ok (.str s.trim)
             | .ok _ => .error "AttributeError: no attribute strip")
          | _ => .error "TypeError: not subscriptable by int"
        else .ok (.str "")
      | none => .ok (.str "")
    | _ => .error "TypeError: argument not iterable"
  else
    response_body.pyGetD "completion" (.str "")

end Adapter

section CostMetrics

/-- Six-decimal round-half-up (`decimal.ROUND_HALF_UP`: ties away from
zero) of a dollar amount, as the integer number of millionths. -/
def roundHalfUpMicros (q : ℚ) : ℤ :=
  if q < 0 then -(⌊-q * 1000000 + 1/2⌋) else ⌊q * 1000000 + 1/2⌋

/-- Insert a `','` before every third digit, working over the reversed
digit string (the integer-part grouping of Python `f"{v:,.6f}"`). -/
def groupRevAux : List Char → Nat → List Char
  | [], _ => []
  | c :: t, k =>
    if k ≠ 0 && k % 3 == 0 then ',' :: c :: groupRevAux t (k + 1)
    else c :: groupRevAux t (k + 1)

/-- Thousands grouping of a digit string. -/
def groupThousands (s : String) : String :=
  String.mk ((groupRevAux s.toList.reverse 0).reverse)

/-- Left-pad with `'0'` to six digits. -/
def padSixZeros (s : String) : String :=
  String.mk (List.replicate (6 - s.length) '0') ++ s

/-- `format_cost` (defined identically four times in the source: twice
inline in `stream_generate`, and in `KBCostMetrics.calculate_cost` /
`calculate_chunk_costs`):
`Decimal(str(value)).quantize(Decimal('0.000000'), rounding=ROUND_HALF_UP)`
rendered as `f"${v:,.6f}"`. -/
def format_cost (value : ℚ) : String :=
  let n := roundHalfUpMicros value
  let sign := if n < 0 then "-" else ""
  let a := n.natAbs
  "$" ++ sign ++ groupThousands (Nat.repr (a / 1000000)) ++ "."
    ++ padSixZeros (Nat.repr (a % 1000000))

/-- `KBCostMetrics.estimate_tokens`: empty text estimates to 1, otherwise
`max(1, len(text) // 4)`. -/
def estimate_tokens (text : List Char) : Nat :=
  if text.isEmpty then 1 else max 1 (text.length / 4)

/-- A token-usage triple (`{"input_tokens": …, "output_tokens": …,
"total_tokens": …}`). -/
structure TokenUsage where
  input_tokens : Int
  output_tokens : Int
  total_tokens : Int
deriving Repr, DecidableEq, Inhabited

/-- The formatted cost block of `KBCostMetrics.calculate_cost`. -/
structure CostTriple where
  input_cost : String
  output_cost : String
  total_cost : String
deriving Repr, DecidableEq, Inhabited

/-- `KBCostMetrics.calculate_cost`: minimum-1 token counts, pricing from the
resolved model config (or the default pricing), and a floor that replaces
both per-direction costs by `0.000001` whenever the total falls below one
millionth of a dollar. -/
def calculate_cost (model : Option String) (input_tokens output_tokens : Int) :
    CostTriple :=
  let input_tokens : Int := max 1 input_tokens
  let output_tokens : Int := max 1 output_tokens
  let pricing :=
    match model with
    | some m =>
      if m ≠ "" then (getConfig m).pricing else DEFAULT_CONFIG.pricing
    | none => DEFAULT_CONFIG.pricing
  let input_cost : ℚ := (input_tokens : ℚ) / 1000 * pricing.input_cost
  let output_cost : ℚ := (output_tokens : ℚ) / 1000 * pricing.output_cost
  let total_cost : ℚ := input_cost + output_cost
  if total_cost < 1/1000000 then
    ⟨format_cost (1/1000000), format_cost (1/1000000), format_cost (2/1000000)⟩
  else
    ⟨format_cost input_cost, format_cost output_cost, format_cost total_cost⟩

/-- Does the condition at the head of the Amazon block of
`KBCostMetrics.get_token_usage` hold: `provider_enum == ModelProvider.AMAZON
or (isinstance(provider, str) and "amazon" in provider.lower())`? -/
def amazonDispatch (provider : Option String) : Bool :=
  let provider_enum :=
    match provider with
    | some p =>
      if p ≠ "" then (providerOfString (String.mk (p.toList.map Char.toLower))).getD .unknown
      else .unknown
    | none => .unknown
  provider_enum == .amazon ||
    (match provider with
     | some p => containsSub "amazon".toList (p.toList.map Char.toLower)
     | none => false)

/-- First structured Amazon layout probed by `get_token_usage`:
`retrieveAndGenerateResponse.metrics` carrying both
`promptTokenCount` and `completionTokenCount`. -/
def ragMetricsLayout (rb : Json) : Option (Int × Int) :=
  match rb.lookup "retrieveAndGenerateResponse" with
  | some (.obj kvs) =>
    (match ((kvs.lookup "metrics").getD (.obj [])) with
     | .obj ms =>
       (match ms.lookup "promptTokenCount", ms.lookup "completionTokenCount" with
        | some pv, some cv => some (pv.toIntD 1, cv.toIntD 1)
        | _, _ => none)
     | _ => none)
  | _ => none

/-- Second structured layout: a top-level `usage` dict, probed first with
`inputTokens`/`outputTokens`, then with `prompt_tokens`/`completion_tokens`. -/
def usageLayout (rb : Json) : Option (Int × Int) :=
  match rb.lookup "usage" with
  | some (.obj us) =>
    (match us.lookup "inputTokens", us.lookup "outputTokens" with
     | some iv, some ov => some (iv.toIntD 1, ov.toIntD 1)
     | _, _ =>
       match us.lookup "prompt_tokens", us.lookup "completion_tokens" with
       | some iv, some ov => some (iv.toIntD 1, ov.toIntD 1)
       | _, _ => none)
  | _ => none

/-- Third structured layout: `responseMetadata.tokenUsage` carrying
`promptTokens` and `completionTokens`. -/
def responseMetadataLayout (rb : Json) : Option (Int × Int) :=
  match rb.lookup "responseMetadata" with
  | some (.obj ms) =>
    (match ms.lookup "tokenUsage" with
     | some (.obj ts) =>
       (match ts.lookup "promptTokens", ts.lookup "completionTokens" with
        | some pv, some cv => some (pv.toIntD 1, cv.toIntD 1)
        | _, _ => none)
     | _ => none)
  | _ => none

/-- The `output.text` estimation fallback at the end of the Amazon block. -/
def amazonOutputTextLayout (rb : Json) : Option String :=
  match rb.lookup "output" with
  | some (.obj os) =>
    (match os.lookup "text" with
     | some (.str s) => some s
     | _ => none)
  | _ => none

/-- The non-Amazon provider chain of `get_token_usage` (original
provider-specific handling), starting from the minimum usage `⟨1, 1, 2⟩`,
followed by the total recomputation and the `input.text` last-resort
estimate.  `rb` is known to be a dict here. -/
def getTokenUsageChain (kvs : List (String × Json)) (provider : Option String)
    (model : Option String) : TokenUsage :=
  let provider_enum :=
    match provider with
    | some p =>
      if p ≠ "" then (providerOfString (String.mk (p.toList.map Char.toLower))).getD .unknown
      else .unknown
    | none => .unknown
  let rb : Json := .obj kvs
  let usage : TokenUsage :=
    if provider_enum == .anthropic then
      let u := ((kvs.lookup "usage").getD (.obj []))
      ⟨max 1 (((u.lookup "input_tokens").getD (.int 1)).toIntD 1),
       max 1 (((u.lookup "output_tokens").getD (.int 1)).toIntD 1), 2⟩
    else if provider_enum == .amazon
        && (match model with
            | some m => m ≠ "" && containsSub "nova".toList (m.toList.map Char.toLower)
            | none => false) then
      let u := ((kvs.lookup "usage").getD (.obj []))
      ⟨max 1 (((u.lookup "inputTokens").getD (.int 1)).toIntD 1),
       max 1 (((u.lookup "outputTokens").getD (.int 1)).toIntD 1), 2⟩
    else if provider_enum == .cohere then
      let meta := ((kvs.lookup "meta").getD (.obj []))
      let total := max 2 (((meta.lookup "billed_tokens").getD (.int 2)).toIntD 2)
      if meta.hasKey "tokens" then
        let t := (meta.lookup "tokens").getD .null
        ⟨max 1 (((t.lookup "prompt_tokens").getD (.int 1)).toIntD 1),
         max 1 (((t.lookup "completion_tokens").getD (.int 1)).toIntD 1), total⟩
      else
        let inp := max 1 ((total * 3) / 10)
        ⟨inp, max 1 (total - inp), total⟩
    else if provider_enum == .mistral then
      let u := ((kvs.lookup "usage").getD (.obj []))
      ⟨max 1 (((u.lookup "prompt_tokens").getD (.int 1)).toIntD 1),
       max 1 (((u.lookup "completion_tokens").getD (.int 1)).toIntD 1), 2⟩
    else
      match kvs.lookup "text" with
      | some (.str s) =>
        let total : Int := estimate_tokens s.toList
        let inp := max 1 ((total * 3) / 10)
        ⟨inp, max 1 (total - inp), 2⟩
      | _ => ⟨1, 1, 2⟩
  -- usage["total_tokens"] = max(2, input + output)
  let usage := { usage with total_tokens := max 2 (usage.input_tokens + usage.output_tokens) }
  -- last-resort estimate from input/output text when both are still 1
  if usage.input_tokens == (1 : Int) && usage.output_tokens == (1 : Int) then
    match rb.lookup "input" with
    | some (.obj is) =>
      (match is.lookup "text" with
       | some (.str it) =>
         let input_tokens : Int := estimate_tokens it.toList
         let output_tokens : Int :=
           match amazonOutputTextLayout rb with
           | some ot => max 1 ((estimate_tokens ot.toList : Int))
           | none => max 1 ((input_tokens * 15) / 10)
         ⟨max 1 input_tokens, output_tokens, max 1 input_tokens + output_tokens⟩
       | _ => usage)
    | _ => usage
  else usage

/-- `KBCostMetrics.get_token_usage`.  The usage dict is initialised to the
minimum `⟨1, 1, 2⟩`; falsy or non-dict bodies return it unchanged (the falsy
check returns directly, and every non-dict body either falls through both
chains untouched or raises into the `except` that returns the current
usage).  On the Amazon dispatch, the three structured layouts are probed in
order and *return immediately*, without recomputing `total_tokens`. -/
def get_token_usage (response_body : Json) (provider : Option String)
    (model : Option String) : TokenUsage :=
  match response_body with
  | .obj kvs =>
    if (Json.obj kvs).pyTruthy then
      if amazonDispatch provider then
        match ragMetricsLayout (.obj kvs) with
        | some (i, o) => ⟨max 1 i, max 1 o, 2⟩
        | none =>
          match usageLayout (.obj kvs) with
          | some (i, o) => ⟨max 1 i, max 1 o, 2⟩
          | none =>
            match responseMetadataLayout (.obj kvs) with
            | some (i, o) => ⟨max 1 i, max 1 o, 2⟩
            | none =>
              match amazonOutputTextLayout (.obj kvs) with
              | some s =>
                let output_tokens : Int := estimate_tokens s.toList
                let input_tokens : Int := max 1 ((output_tokens * 5) / 10)
                ⟨max 1 input_tokens, max 1 output_tokens,
                 max 1 input_tokens + max 1 output_tokens⟩
              | none => getTokenUsageChain kvs provider model
      else getTokenUsageChain kvs provider model
    else ⟨1, 1, 2⟩
  | _ => ⟨1, 1, 2⟩

end CostMetrics

section Streaming

/-- The metadata bundle carried by the terminal fragment. -/
structure CostMetricsBlock where
  input_cost : String
  output_cost : String
  total_cost : String
  input_tokens : Int
  output_tokens : Int
  total_tokens : Int
deriving Repr, DecidableEq, Inhabited

structure Metadata where
  page_numbers : List Int
  cost_metrics : Option CostMetricsBlock
deriving Repr, DecidableEq, Inhabited

/-- One streamed chunk object (`response_chunk` in `stream_generate`):
`chunk_page_numbers` is present only when nonempty, `metadata` only on the
final fragment. -/
structure Fragment where
  chunk : List Char
  is_final : Bool
  chunk_page_numbers : Option (List Int)
  metadata : Option Metadata
deriving Repr, DecidableEq, Inhabited

/-- A citation span `(span_start, span_end)` with its sorted page numbers —
one entry of `citations_map`. -/
abbrev Citation := (Int × Int) × List Int

/-- Page numbers attached to the chunk covering `[chunk_start, chunk_end)`:
the code iterates `citations_map`, keeps every span with
`not (chunk_end <= span_start or chunk_start >= span_end)`, extends the
accumulator with its pages, then applies `sorted(list(set(…)))`. -/
def chunkPageNumbers (citations_map : List Citation) (chunk_start chunk_end : Int) :
    List Int :=
  sortDedup
    (((citations_map.filter
        (fun c => !(decide (chunk_end ≤ c.fst.fst) || decide (chunk_start ≥ c.fst.snd)))).map
      Prod.snd).flatten)

/-- The loop body at index `i` of the chunking loop of `stream_generate`
(lines 299–327): slice `generated_text[i:i+100]`, mark final when
`i + chunk_size >= len(generated_text)`, attach overlapping citation pages,
and attach the metadata bundle on the final chunk. -/
def mkFragment (text : List Char) (n : Nat) (citations_map : List Citation)
    (meta : Metadata) (i : Nat) : Fragment :=
  let chunk := pySlice text i (i + 100)
  let chunk_start := i
  let chunk_end := i + chunk.length
  let is_final := decide (n ≤ i + 100)
  let nums := chunkPageNumbers citations_map (chunk_start : Int) (chunk_end : Int)
  { chunk := chunk
    is_final := is_final
    chunk_page_numbers := if nums.isEmpty then none else some nums
    metadata := if is_final then some meta else none }

/-- `for i in range(0, len(generated_text), chunk_size)` with the loop body
above; structural recursion on a fuel that bounds the iteration count (each
step advances `i` by the chunk size 100). -/
def emitChunksAux (text : List Char) (n : Nat) (citations_map : List Citation)
    (meta : Metadata) : Nat → Nat → List Fragment
  | _, 0 => []
  | i, fuel + 1 =>
    if i < n then
      mkFragment text n citations_map meta i ::
        emitChunksAux text n citations_map meta (i + 100) fuel
    else []

/-- The chunk-emission stage of `stream_generate`: all fragments produced
for a generated text and citation map, in emission order. -/
def emitChunks (text : List Char) (citations_map : List Citation) (meta : Metadata) :
    List Fragment :=
  emitChunksAux text text.length citations_map meta 0 (text.length + 1)

/-- One element of the serialized stream. -/
inductive StreamElem where
  | chunkElem : Fragment → StreamElem
  | errorElem : String → Bool → StreamElem
deriving Repr, DecidableEq, Inhabited

/-- `int(x)` applied to a JSON page-number value: ints pass through, bools
become 0/1, digit strings (with an optional sign) parse, anything else
raises `ValueError`/`TypeError` — which the code catches and skips. -/
def pyIntOf (j : Json) : Option Int :=
  match j with
  | .int n => some n
  | .bool b => some (if b then 1 else 0)
  | .num q => some q.floor
  | .str s =>
    let t := s.trim.toList
    (match t with
     | '-' :: ds => if !ds.isEmpty && ds.all isAsciiDigit
                    then some (-(ds.foldl (fun a c => a * 10 + (c.toNat - 48)) 0 : Int))
                    else none
     | ds => if !ds.isEmpty && ds.all isAsciiDigit
             then some ((ds.foldl (fun a c => a * 10 + (c.toNat - 48)) 0 : Int))
             else none)
  | _ => none

/-- The per-citation body of the citation loop (lines 133–162): read the
span from `generatedResponsePart.textResponsePart.span`, collect the page
numbers of `retrievedReferences`, and record the span in `citations_map`
(dict upsert) when both ends and at least one page are present.  The
running state is `(citations_map, unique_page_numbers)`. -/
def processCitation (st : List Citation × List Int) (citation : Json) :
    Except String (List Citation × List Int) :=
  let (cmap, uniq) := st
  match citation with
  | .obj ckvs =>
    -- span extraction
    let spanStep : Except String (Option Int × Option Int) :=
      match ckvs.lookup "generatedResponsePart" with
      | some grp =>
        (match Json.pyInKey "textResponsePart" grp with
         | .error e => .error e
         | .ok true =>
           (match grp.pyGetItem "textResponsePart" with
            | .error e => .error e
            | .ok tp =>
              match Json.pyInKey "span" tp with
              | .error e => .error e
              | .ok true =>
                (match tp.pyGetItem "span" with
                 | .error e => .error e
                 | .ok sp =>
                   match sp with
                   | .obj skvs =>
                     .ok ((skvs.lookup "start").bind (fun j => match j with
                            | .int n => some n | _ => none),
                          (skvs.lookup "end").bind (fun j => match j with
                            | .int n => some n | _ => none))
                   | _ => .error "AttributeError: no attribute get")
              | .ok false => .ok (none, none))
         | .ok false => .ok (none, none))
      | none => .ok (none, none)
    match spanStep with
    | .error e => .error e
    | .ok (span_start, span_end) =>
      -- page numbers from retrieved references
      match ckvs.lookup "retrievedReferences" with
      | some refs =>
        (match refs with
         | .arr rs =>
           let pages : List Int := rs.foldl
             (fun acc r =>
               match r with
               | .obj rkvs =>
                 (match rkvs.lookup "metadata" with
                  | some (.obj mkvs) =>
                    (match mkvs.lookup "x-amz-bedrock-kb-document-page-number" with
                     | some pn =>
                       (match pn with
                        | .null => acc
                        | _ =>
                          match pyIntOf pn with
                          | some n => acc ++ [n]
                          | none => acc)
                     | none => acc)
                  | some _ => acc
                  | none => acc)
               | _ => acc) []
           let uniq := uniq ++ pages
           if span_start.isSome && span_end.isSome && !pages.isEmpty then
             let key := (span_start.getD 0, span_end.getD 0)
             let sortedPages := pages.insertionSort (· ≤ ·)
             -- dict upsert: replace in place if the key exists, else append
             let cmap :=
               if cmap.any (fun c => c.fst = key) then
                 cmap.map (fun c => if c.fst = key then (key, sortedPages) else c)
               else cmap ++ [(key, sortedPages)]
             .ok (cmap, uniq)
           else .ok (cmap, uniq)
         | .str _ => .ok (cmap, uniq)
         | .obj _ => .ok (cmap, uniq)
         | _ => .error "TypeError: not iterable")
      | none => .ok (cmap, uniq)
  | _ => .ok (cmap, uniq)   -- `isinstance(citation, dict)` guard fails: skip

/-- Fold `processCitation` over the citation list. -/
def processCitations (cs : List Json) : Except String (List Citation × List Int) :=
  cs.foldlM processCitation ([], [])

/-- Lines 121–130: locate the citation list in either of the two response
layouts (top-level `citations`, else nested under
`retrieveAndGenerateResponse`). -/
def locateCitations (response : Json) : Except String (Option Json) :=
  match response with
  | .obj kvs =>
    if (Json.obj kvs).pyTruthy then
      match kvs.lookup "citations" with
      | some cd => .ok (some cd)
      | none =>
        match kvs.lookup "retrieveAndGenerateResponse" with
        | some rag =>
          (match Json.pyInKey "citations" rag with
           | .error e => .error e
           | .ok true =>
             (match rag.pyGetItem "citations" with
              | .error e => .error e
              | .ok cd => .ok (some cd))
           | .ok false => .ok none)
        | none => .ok none
    else .ok none
  | _ => .ok none

/-- The cost block assembled on the knowledge-base path of
`stream_generate` (lines 186–212): character-length-proportional costs at
$0.0001 / $0.0003 per 1000 characters, formatted by the inline
`format_cost`, alongside the token-usage counts. -/
def kbPathCostMetrics (prompt_length response_length : Nat) (token_usage : TokenUsage) :
    CostMetricsBlock :=
  let input_cost : ℚ := (prompt_length : ℚ) / 1000 * (1/10000)
  let output_cost : ℚ := (response_length : ℚ) / 1000 * (3/10000)
  let total_cost : ℚ := input_cost + output_cost
  { input_cost := format_cost input_cost
    output_cost := format_cost output_cost
    total_cost := format_cost total_cost
    input_tokens := token_usage.input_tokens
    output_tokens := token_usage.output_tokens
    total_tokens := token_usage.total_tokens }

/-- The cost block assembled on the direct-invoke path of `stream_generate`
(lines 260–285), transcribed from its own code region. -/
def directPathCostMetrics (prompt_length response_length : Nat)
    (token_usage : TokenUsage) : CostMetricsBlock :=
  let input_cost : ℚ := (prompt_length : ℚ) / 1000 * (1/10000)
  let output_cost : ℚ := (response_length : ℚ) / 1000 * (3/10000)
  let total_cost : ℚ := input_cost + output_cost
  { input_cost := format_cost input_cost
    output_cost := format_cost output_cost
    total_cost := format_cost total_cost
    input_tokens := token_usage.input_tokens
    output_tokens := token_usage.output_tokens
    total_tokens := token_usage.total_tokens }

/-- Lines 167–184 (and identically 241–258): provider-reported token usage,
replaced by text-length estimates when either reported direction is at the
minimum. -/
def tokenUsageWithFallback (response_body : Json) (model_config : KBModelConfig)
    (prompt generated_text : List Char) : TokenUsage :=
  let token_usage := get_token_usage response_body
    (some model_config.provider.value) (some model_config.model_id)
  if token_usage.input_tokens ≤ 1 || token_usage.output_tokens ≤ 1 then
    let input_tokens : Int := estimate_tokens prompt
    let output_tokens : Int := estimate_tokens generated_text
    ⟨max 1 input_tokens, max 1 output_tokens, max 2 (input_tokens + output_tokens)⟩
  else token_usage

/-- The knowledge-base branch of `stream_generate` after a successful
`retrieve_and_generate` call (lines 116–214): extract the generated text,
build the citation map and page-number set, compute token usage and the
proportional cost block.  `.error` is any exception inside the inner `try`,
which the code turns into the single terminal error element. -/
def kbProcess (prompt : List Char) (model_config : KBModelConfig) (response : Json) :
    Except String (List Char × List Citation × Metadata) :=
  match (match response.pyGetD "output" (.obj []) with
         | .error e => .error e
         | .ok out => out.pyGetD "text" (.str "") : Except String Json) with
  | .error e => .error e
  | .ok gt =>
    match gt with
    | .str generated_text =>
      (match locateCitations response with
       | .error e => .error e
       | .ok citations_data =>
         let folded : Except String (List Citation × List Int) :=
           match citations_data with
           | some cd =>
             if cd.pyTruthy then
               match cd with
               | .arr cs => processCitations cs
               | .str _ => .ok ([], [])    -- iterating a string yields non-dict items
               | .obj _ => .ok ([], [])    -- iterating a dict yields its string keys
               | _ => .error "TypeError: not iterable"
             else .ok ([], [])
           | none => .ok ([], [])
         match folded with
         | .error e => .error e
         | .ok (citations_map, unique_pages) =>
           let token_usage := tokenUsageWithFallback response model_config
             prompt generated_text.toList
           let meta : Metadata :=
             { page_numbers := sortDedup unique_pages
               cost_metrics := some (kbPathCostMetrics prompt.length
                 generated_text.toList.length token_usage) }
           .ok (generated_text.toList, citations_map, meta))
    | _ => .error "TypeError: generated text is not a string"
  
/-- The direct-invoke branch of `stream_generate` after a successful
`invoke_model` call (lines 236–287). -/
def directProcess (prompt : List Char) (model_config : KBModelConfig)
    (response_body : Json) : Except String (List Char × Metadata) :=
  match extractGeneratedText response_body model_config with
  | .error e => .error e
  | .ok gt =>
    match gt with
    | .str generated_text =>
      let token_usage := tokenUsageWithFallback response_body model_config
        prompt generated_text.toList
      let meta : Metadata :=
        { page_numbers := []
          cost_metrics := some (directPathCostMetrics prompt.length
            generated_text.toList.length token_usage) }
      .ok (generated_text.toList, meta)
    | _ => .error "TypeError: generated text is not a string"

/-- `QueryService.stream_generate`, with the single external call's outcome
passed in as `invocation` (`.error` models a raised `ClientError` or any
other exception out of the `boto3` call).  The emitted value is the full
ordered stream.  A truthy `knowledge_base_id` selects the retrieval path;
otherwise the direct-invoke path builds the request body first and then
consumes the invocation result. -/
def streamGenerate (defaultModelArn : String) (prompt : String)
    (settings : Option GenerationSettings) (knowledge_base_id : Option String)
    (model_arn : Option String) (invocation : Except String Json) :
    List StreamElem :=
  let current_model_arn :=
    match model_arn with
    | some a => if a = "" then defaultModelArn else a
    | none => defaultModelArn
  let model_config := getConfig current_model_arn
  let kb : Bool :=
    match knowledge_base_id with
    | some k => !(k == "")
    | none => false
  if kb then
    match invocation with
    | .error e => [.errorElem ("Knowledge base query failed: " ++ e) true]
    | .ok response =>
      match kbProcess prompt.toList model_config response with
      | .error e => [.errorElem ("Knowledge base query failed: " ++ e) true]
      | .ok (text, citations_map, meta) =>
        (emitChunks text citations_map meta).map .chunkElem
  else
    match prepareRequestBody prompt settings current_model_arn with
    | .error e => [.errorElem ("Direct LLM query failed: " ++ e) true]
    | .ok _ =>
      match invocation with
      | .error e => [.errorElem ("Direct LLM query failed: " ++ e) true]
      | .ok response_body =>
        match directProcess prompt.toList model_config response_body with
        | .error e => [.errorElem ("Direct LLM query failed: " ++ e) true]
        | .ok (text, meta) => (emitChunks text [] meta).map .chunkElem

end Streaming

section ChunkLoopLemmas

theorem emitChunksAux_flatten (text : List Char) (c : List Citation) (m : Metadata) :
    ∀ (fuel i : Nat), text.length ≤ i + 100 * fuel →
      ((emitChunksAux text text.length c m i fuel).map Fragment.chunk).flatten
        = text.drop i := by
  intro fuel
  induction fuel with
  | zero =>
    intro i h
    simp only [emitChunksAux, List.map_nil, List.flatten_nil]
    exact (List.drop_eq_nil_of_le (by omega)).symm
  | succ fuel ih =>
    intro i h
    by_cases hi : i < text.length
    · simp only [emitChunksAux, hi, if_true, List.map_cons, List.flatten_cons]
      rw [ih (i + 100) (by omega)]
      show (mkFragment text text.length c m i).chunk ++ text.drop (i + 100) = text.drop i
      have hchunk : (mkFragment text text.length c m i).chunk
          = (text.drop i).take 100 := by
        simp [mkFragment, pySlice]
      rw [hchunk]
      have hdd : text.drop (i + 100) = (text.drop i).drop 100 := by
        rw [List.drop_drop]
      rw [hdd, List.take_append_drop]
    · simp only [emitChunksAux, hi, if_false, List.map_nil, List.flatten_nil]
      exact (List.drop_eq_nil_of_le (by omega)).symm

theorem emitChunksAux_length (text : List Char) (c : List Citation) (m : Metadata) :
    ∀ (fuel i : Nat), text.length ≤ i + 100 * fuel →
      (emitChunksAux text text.length c m i fuel).length
        = (text.length - i + 99) / 100 := by
  intro fuel
  induction fuel with
  | zero =>
    intro i h
    simp only [emitChunksAux, List.length_nil]
    omega
  | succ fuel ih =>
    intro i h
    by_cases hi : i < text.length
    · simp only [emitChunksAux, hi, if_true, List.length_cons]
      rw [ih (i + 100) (by omega)]
      omega
    · simp only [emitChunksAux, hi, if_false, List.length_nil]
      omega

theorem emitChunksAux_getElem? (text : List Char) (c : List Citation) (m : Metadata) :
    ∀ (fuel i k : Nat), text.length ≤ i + 100 * fuel →
      (emitChunksAux text text.length c m i fuel)[k]? =
        (if i + 100 * k < text.length
         then some (mkFragment text text.length c m (i + 100 * k)) else none) := by
  intro fuel
  induction fuel with
  | zero =>
    intro i k h
    have : ¬ i + 100 * k < text.length := by omega
    simp [emitChunksAux, this]
  | succ fuel ih =>
    intro i k h
    by_cases hi : i < text.length
    · simp only [emitChunksAux, hi, if_true]
      cases k with
      | zero =>
        simp [hi]
      | succ k =>
        have hk : (i + 100) + 100 * k = i + 100 * (k + 1) := by ring
        have := ih (i + 100) k (by omega)
        simpa [hk] using this
    · simp only [emitChunksAux, hi, if_false]
      have : ¬ i + 100 * k < text.length := by omega
      simp [this]

theorem emitChunks_flatten (text : List Char) (c : List Citation) (m : Metadata) :
    ((emitChunks text c m).map Fragment.chunk).flatten = text := by
  have := emitChunksAux_flatten text c m (text.length + 1) 0 (by omega)
  simpa using this

theorem emitChunks_length (text : List Char) (c : List Citation) (m : Metadata) :
    (emitChunks text c m).length = (text.length + 99) / 100 := by
  have := emitChunksAux_length text c m (text.length + 1) 0 (by omega)
  simpa using this

theorem emitChunks_getElem? (text : List Char) (c : List Citation) (m : Metadata)
    (k : Nat) :
    (emitChunks text c m)[k]? =
      (if 100 * k < text.length
       then some (mkFragment text text.length c m (100 * k)) else none) := by
  have := emitChunksAux_getElem? text c m (text.length + 1) 0 k (by omega)
  simpa using this

end ChunkLoopLemmas

section Examples

/-- A concrete metadata bundle used by the scenario theorems. -/
def exampleMeta : Metadata :=
  { page_numbers := [3, 7]
    cost_metrics := some (kbPathCostMetrics 10 250 ⟨2, 62, 64⟩) }

/-- A 250-character generated text. -/
def text250 : List Char := List.replicate 250 'a'

/-- A 200-character generated text. -/
def text200 : List Char := List.replicate 200 'x'

/-- A citation map with a span `[0, 50)` on pages `[3]` and a span
`[150, 200)` on pages `[7]`. -/
def exampleCitations : List Citation := [((0, 50), [3]), ((150, 200), [7])]

end Examples

/-- C1 (amended).  For every generated text `T` (as emitted by
`stream_generate`'s chunking loop with any citation map and metadata):
concatenating the fragment texts in emission order reproduces `T` exactly,
and the number of fragments is `ceil(len(T)/100)` — including empty `T`,
for which the loop `range(0, 0, 100)` runs zero times and the chunker emits
**no** fragment at all (rather than one terminal fragment).  A
250-character text with no citations yields exactly 3 fragments of lengths
[100, 100, 50], only the third marked terminal, and none carrying
`chunk_page_numbers`. -/
theorem chunker_reassembly_count_and_scenario :
    (∀ (text : List Char) (cits : List Citation) (meta : Metadata),
       ((emitChunks text cits meta).map Fragment.chunk).flatten = text ∧
       (emitChunks text cits meta).length = (text.length + 99) / 100) ∧
    (∀ (cits : List Citation) (meta : Metadata), emitChunks [] cits meta = []) ∧
    ((emitChunks text250 [] exampleMeta).map (fun f => f.chunk.length)
        = [100, 100, 50] ∧
     (emitChunks text250 [] exampleMeta).map Fragment.is_final
        = [false, false, true] ∧
     (emitChunks text250 [] exampleMeta).map Fragment.chunk_page_numbers
        = [none, none, none]) := by
  refine ⟨fun text cits meta => ⟨emitChunks_flatten text cits meta,
    emitChunks_length text cits meta⟩, fun cits meta => rfl, ?_, ?_, ?_⟩ <;> decide

/-- C1 (counterexample to the claim as stated).  For the empty generated
text the chunker emits zero fragments, not one terminal fragment: the claim
that "for empty T it emits exactly 1 fragment with the final flag set
immediately" fails on the code. -/
theorem chunker_empty_text_counterexample :
    emitChunks [] [] exampleMeta = [] ∧
    (emitChunks [] [] exampleMeta).length = 0 ∧ (0 : Nat) ≠ 1 :=
  ⟨rfl, rfl, by decide⟩

/-- C2.  The `k`-th emitted fragment covers the half-open character range
`[100*k, min(100*k+100, len(T)))`, and its `chunk_page_numbers` is exactly
the sorted, de-duplicated union of the page numbers of those citation spans
`(s, e)` with `¬(chunk_end ≤ s ∨ chunk_start ≥ e)` — present only when that
union is nonempty (spans that merely touch a boundary fail the strict
overlap test and contribute nothing). -/
theorem fragment_citation_overlap (text : List Char) (cits : List Citation)
    (meta : Metadata) (k : Nat) (h : k < (emitChunks text cits meta).length) :
    ((emitChunks text cits meta).get ⟨k, h⟩).chunk_page_numbers =
      (let s : Int := (100 * k : Nat)
       let e : Int := (min (100 * k + 100) text.length : Nat)
       let pages := sortDedup (((cits.filter
           (fun c => !(decide (e ≤ c.fst.fst) || decide (s ≥ c.fst.snd)))).map
             Prod.snd).flatten)
       if pages.isEmpty then none else some pages) := by
  have hk : 100 * k < text.length := by
    have hl := emitChunks_length text cits meta
    rw [hl] at h
    omega
  have hsome := emitChunks_getElem? text cits meta k
  rw [if_pos hk] at hsome
  have hget : (emitChunks text cits meta).get ⟨k, h⟩
      = mkFragment text text.length cits meta (100 * k) := by
    have h2 := List.getElem?_eq_getElem h
    rw [hsome] at h2
    rw [List.get_eq_getElem]
    exact (Option.some.inj h2).symm
  rw [hget]
  have hlen : (pySlice text (100 * k) (100 * k + 100)).length
      = min (100 * k + 100) text.length - 100 * k := by
    simp [pySlice]
    omega
  simp only [mkFragment, chunkPageNumbers, hlen]
  have harith : 100 * k + (min (100 * k + 100) text.length - 100 * k)
      = min (100 * k + 100) text.length := by omega
  rw [harith]

/-- C2 witness: on a 200-character text, the citation spanning `[0, 50)`
appears on the fragment covering `[0, 100)` (pages `[3]`), the citation
spanning `[150, 200)` does not appear there but does appear on the fragment
covering `[100, 200)` (pages `[7]`). -/
theorem fragment_citation_overlap_witness :
    ((emitChunks text200 exampleCitations exampleMeta).get
        ⟨0, by decide⟩).chunk_page_numbers = some [3] ∧
    ((emitChunks text200 exampleCitations exampleMeta).get
        ⟨1, by decide⟩).chunk_page_numbers = some [7] :=
  ⟨(fragment_citation_overlap text200 exampleCitations exampleMeta 0
      (by decide)).trans (by decide),
   (fragment_citation_overlap text200 exampleCitations exampleMeta 1
      (by decide)).trans (by decide)⟩

section ResolverLemmas

theorem tokenLimits_pos (fam : String) : 1 ≤ tokenLimits theGlobals fam := by
  unfold tokenLimits
  split_ifs <;> decide

theorem pricing_lookup_nonneg (fam : String) :
    0 ≤ ((theGlobals.modelPricing.lookup fam).getD theGlobals.defaultConfig.pricing).input_cost ∧
    0 ≤ ((theGlobals.modelPricing.lookup fam).getD theGlobals.defaultConfig.pricing).output_cost := by
  show 0 ≤ ((modelPricingTable.lookup fam).getD DEFAULT_CONFIG.pricing).input_cost ∧
      0 ≤ ((modelPricingTable.lookup fam).getD DEFAULT_CONFIG.pricing).output_cost
  simp only [modelPricingTable, List.lookup]
  repeat' split
  all_goals norm_num [DEFAULT_CONFIG, mkKBModelConfig]

theorem getConfig_fields (r : String) :
    getConfig r = mkKBModelConfig (mkModelIdentifier r).model_name
      (mkModelIdentifier r).provider
      (tokenLimits theGlobals (getFamily (mkModelIdentifier r).model_name))
      theGlobals.defaultConfig.temperature theGlobals.defaultConfig.top_p 250 none
      (decompositionSupported (getFamily (mkModelIdentifier r).model_name))
      (some ((theGlobals.modelPricing.lookup
        (getFamily (mkModelIdentifier r).model_name)).getD
          theGlobals.defaultConfig.pricing)) none := rfl

end ResolverLemmas

/-- C3 (amended).  Configuration resolution is total: for every reference
string the resolved config has `max_tokens ≥ 1` and pricing with both rates
`≥ 0`.  When the reference fails to parse (no model name, no recognised
provider), the result is the fixed default shape — `model_id "unknown"`,
provider `UNKNOWN`, `max_tokens 2048`, default sampling parameters and the
baseline pricing `(0.0001, 0.0003)`.  (A family-table lookup miss with a
recognised provider, by contrast, keeps the parsed provider and model name
and falls back only to the default `max_tokens` and pricing.) -/
theorem resolver_total_and_default :
    (∀ r : String, 1 ≤ (getConfig r).max_tokens ∧
       0 ≤ (getConfig r).pricing.input_cost ∧
       0 ≤ (getConfig r).pricing.output_cost) ∧
    (∀ r : String, (mkModelIdentifier r).model_name = "unknown" →
       (mkModelIdentifier r).provider = ModelProvider.unknown →
       getConfig r = mkKBModelConfig "unknown" .unknown 2048 (2/10) (999/1000) 250
         none false (some ⟨1/10000, 3/10000⟩) none) := by
  constructor
  · intro r
    rw [getConfig_fields r]
    exact ⟨tokenLimits_pos _,
      (pricing_lookup_nonneg (getFamily (mkModelIdentifier r).model_name)).1,
      (pricing_lookup_nonneg (getFamily (mkModelIdentifier r).model_name)).2⟩
  · intro r h1 h2
    rw [getConfig_fields r, h1, h2]
    rfl

/-- C3 (counterexample to the claim as stated).  A family-table lookup miss
does **not** yield the default config with provider `UNKNOWN`: the
reference `…foundation-model/anthropic.claude-99` parses (provider
`anthropic`, model name `anthropic.claude-99`) but belongs to no known
family, and `get_config` keeps the parsed provider and model name. -/
theorem resolver_lookup_miss_counterexample :
    getFamily (mkModelIdentifier
      "arn:aws:bedrock:us-east-1::foundation-model/anthropic.claude-99").model_name
      = "unknown" ∧
    (getConfig "arn:aws:bedrock:us-east-1::foundation-model/anthropic.claude-99").provider
      = ModelProvider.anthropic ∧
    ModelProvider.anthropic ≠ ModelProvider.unknown ∧
    (getConfig "arn:aws:bedrock:us-east-1::foundation-model/anthropic.claude-99").model_id
      = "anthropic.claude-99" := by
  refine ⟨?_, ?_, ?_, ?_⟩ <;> decide

/-- C3 witness: the unknown reference `"foo-bar"` resolves without error to
the hardcoded default configuration. -/
theorem resolver_total_and_default_witness :
    1 ≤ (getConfig "foo-bar").max_tokens ∧
    getConfig "foo-bar" = mkKBModelConfig "unknown" .unknown 2048 (2/10) (999/1000) 250
      none false (some ⟨1/10000, 3/10000⟩) none :=
  ⟨(resolver_total_and_default.1 "foo-bar").1,
   resolver_total_and_default.2 "foo-bar" (by decide) (by decide)⟩

section CostEvaluation

theorem format_cost_of_micros (q : ℚ) (n : ℤ) (h : roundHalfUpMicros q = n) :
    format_cost q =
      "$" ++ (if n < 0 then "-" else "")
        ++ groupThousands (Nat.repr (n.natAbs / 1000000)) ++ "."
        ++ padSixZeros (Nat.repr (n.natAbs % 1000000)) := by
  unfold format_cost
  rw [h]

theorem micros_of_tenth_micro : roundHalfUpMicros (1/10000000) = 0 := by
  unfold roundHalfUpMicros
  rw [if_neg (by norm_num)]
  norm_num

theorem micros_of_tie : roundHalfUpMicros (1234565/10000000) = 123457 := by
  unfold roundHalfUpMicros
  rw [if_neg (by norm_num)]
  norm_num

theorem micros_of_zero : roundHalfUpMicros 0 = 0 := by
  unfold roundHalfUpMicros
  rw [if_neg (by norm_num)]
  norm_num

theorem micros_of_one_micro : roundHalfUpMicros (1/1000000) = 1 := by
  unfold roundHalfUpMicros
  rw [if_neg (by norm_num)]
  norm_num

theorem micros_of_two_micro : roundHalfUpMicros (2/1000000) = 2 := by
  unfold roundHalfUpMicros
  rw [if_neg (by norm_num)]
  norm_num

theorem format_cost_tenth_micro : format_cost (1/10000000) = "$0.000000" :=
  (format_cost_of_micros _ 0 micros_of_tenth_micro).trans rfl

theorem format_cost_tie : format_cost (1234565/10000000) = "$0.123457" :=
  (format_cost_of_micros _ 123457 micros_of_tie).trans rfl

theorem format_cost_zero : format_cost 0 = "$0.000000" :=
  (format_cost_of_micros _ 0 micros_of_zero).trans rfl

theorem format_cost_one_micro : format_cost (1/1000000) = "$0.000001" :=
  (format_cost_of_micros _ 1 micros_of_one_micro).trans rfl

theorem format_cost_two_micro : format_cost (2/1000000) = "$0.000002" :=
  (format_cost_of_micros _ 2 micros_of_two_micro).trans rfl

end CostEvaluation

/-- The claude-3-sonnet reference with a 200k context suffix, as in the
spec's resolution scenario. -/
def claudeSonnetArn : String :=
  "arn:aws:bedrock:us-east-1::foundation-model/anthropic.claude-3-sonnet-20240229-v1:0:200000"

/-- Modelled from the spec: the cost formula the spec attributes to the
direct-invoke path — "the resolved model config's per-1000-token pricing
applied to the token counts".  Defined only to compare the spec's words
against the code's actual formula; no code in the repository computes this. -/
def specTokenBasedInputCost (tokens : Int) (pricing : KBModelPricing) : String :=
  format_cost ((tokens : ℚ) / 1000 * pricing.input_cost)

/-- C5 (amended).  The two paths of `stream_generate` use the **same**
character-length-proportional cost formula: for every prompt length, text
length and token usage, the direct-invoke cost block equals the
knowledge-base cost block, and both charge `len/1000 * $0.0001` for input
and `len/1000 * $0.0003` for output.  The resolved model config's
per-1000-token pricing is not consulted by either path. -/
theorem cost_paths_identical :
    ∀ (p t : Nat) (tu : TokenUsage),
      directPathCostMetrics p t tu = kbPathCostMetrics p t tu ∧
      (directPathCostMetrics p t tu).input_cost
        = format_cost ((p : ℚ) / 1000 * (1/10000)) ∧
      (directPathCostMetrics p t tu).output_cost
        = format_cost ((t : ℚ) / 1000 * (3/10000)) :=
  fun _ _ _ => ⟨rfl, rfl, rfl⟩

theorem claude_pricing : (getConfig claudeSonnetArn).pricing = ⟨300/100000, 900/100000⟩ := rfl

/-- C5 (counterexample to the claim as stated).  For a 1000-character
prompt and 1000-character answer under the resolved claude-3-sonnet config
(250 input tokens at $0.003/1k), the direct-invoke path reports the same
character-proportional `$0.000100` as the retrieval path — not the
token-based `$0.000750` the claim attributes to it. -/
theorem cost_paths_counterexample :
    (directPathCostMetrics 1000 1000 ⟨250, 250, 500⟩).input_cost = "$0.000100" ∧
    (kbPathCostMetrics 1000 1000 ⟨250, 250, 500⟩).input_cost = "$0.000100" ∧
    specTokenBasedInputCost 250 (getConfig claudeSonnetArn).pricing = "$0.000750" ∧
    ("$0.000100" : String) ≠ "$0.000750" := by
  have hmic : roundHalfUpMicros (((1000 : Nat) : ℚ) / 1000 * (1/10000)) = 100 := by
    unfold roundHalfUpMicros
    rw [if_neg (by norm_num)]
    norm_num
  have h1 : format_cost (((1000 : Nat) : ℚ) / 1000 * (1/10000)) = "$0.000100" :=
    (format_cost_of_micros _ 100 hmic).trans rfl
  have h3 : specTokenBasedInputCost 250 (getConfig claudeSonnetArn).pricing
      = "$0.000750" := by
    rw [claude_pricing]
    show format_cost (((250 : Int) : ℚ) / 1000 * (300/100000)) = _
    refine (format_cost_of_micros _ 750 ?_).trans rfl
    unfold roundHalfUpMicros
    rw [if_neg (by norm_num)]
    norm_num
  exact ⟨h1, h1, h3, by decide⟩

/-- C6 (counterexample to the claim as stated).  A computed cost below one
millionth of a dollar is **not** floored in `stream_generate`'s cost
metrics: a 1-character prompt costs `0.0000001`, which the inline
`format_cost` renders as `$0.000000`, not the claimed `$0.000001`. -/
theorem cost_floor_counterexample :
    (kbPathCostMetrics 1 0 ⟨1, 1, 2⟩).input_cost = "$0.000000" ∧
    format_cost (1/10000000) = "$0.000000" ∧
    ("$0.000000" : String) ≠ "$0.000001" := by
  refine ⟨?_, format_cost_tenth_micro, by decide⟩
  show format_cost (((1 : Nat) : ℚ) / 1000 * (1/10000)) = _
  refine (format_cost_of_micros _ 0 ?_).trans rfl
  unfold roundHalfUpMicros
  rw [if_neg (by norm_num)]
  norm_num

/-- C6 (amended).  `format_cost` renders with exactly six decimals using
round-half-up (`0.1234565 → $0.123457`), but applies no minimum: `0.0000001`
renders as `$0.000000`.  The floor-to-minimum exists only in
`KBCostMetrics.calculate_cost` (a sub-one-millionth total forces the block
`$0.000001 / $0.000001 / $0.000002`); `stream_generate`'s emitted
`cost_metrics` bypass it, so a zero cost renders as exactly `$0.000000`. -/
theorem cost_formatting_amended :
    format_cost (1234565/10000000) = "$0.123457" ∧
    format_cost (1/10000000) = "$0.000000" ∧
    calculate_cost none 1 1 = ⟨"$0.000001", "$0.000001", "$0.000002"⟩ ∧
    (kbPathCostMetrics 0 0 ⟨1, 1, 2⟩).total_cost = "$0.000000" := by
  refine ⟨format_cost_tie, format_cost_tenth_micro, ?_, ?_⟩
  · have hc : calculate_cost none 1 1
        = ⟨format_cost (1/1000000), format_cost (1/1000000), format_cost (2/1000000)⟩ := by
      simp only [calculate_cost]
      rw [if_pos (by norm_num [DEFAULT_CONFIG, mkKBModelConfig])]
    rw [hc, format_cost_one_micro, format_cost_two_micro]
  · show format_cost (((0 : Nat) : ℚ) / 1000 * (1/10000)
        + ((0 : Nat) : ℚ) / 1000 * (3/10000)) = _
    refine (format_cost_of_micros _ 0 ?_).trans rfl
    unfold roundHalfUpMicros
    rw [if_neg (by norm_num)]
    norm_num

/-- The `except` wrapper of `KBUtils._prepare_request_body` can never fire:
request building succeeds for every prompt, settings and reference. -/
theorem prepareRequestBody_isOk (p : String) (s : Option GenerationSettings) (a : String) :
    ∃ b, prepareRequestBody p s a = .ok b := ⟨_, rfl⟩

/-- C4.  Whenever the model or retrieval invocation raises, `stream_generate`
produces exactly one element — an error object with the terminal flag set —
and no text fragment is ever emitted before or after it, on either the
knowledge-base or the direct-invoke path. -/
theorem stream_failure_single_error (defaultArn prompt : String)
    (settings : Option GenerationSettings) (kb model_arn : Option String) (e : String) :
    (∃ msg, streamGenerate defaultArn prompt settings kb model_arn (.error e)
        = [.errorElem msg true]) ∧
    (∀ f : Fragment, StreamElem.chunkElem f ∉
        streamGenerate defaultArn prompt settings kb model_arn (.error e)) := by
  have h : ∃ msg, streamGenerate defaultArn prompt settings kb model_arn (.error e)
      = [.errorElem msg true] := by
    simp only [streamGenerate]
    split
    · exact ⟨_, rfl⟩
    · obtain ⟨b, hb⟩ := prepareRequestBody_isOk prompt settings
        (match model_arn with
         | some a => if a = "" then defaultArn else a
         | none => defaultArn)
      rw [hb]
      exact ⟨_, rfl⟩
  refine ⟨h, ?_⟩
  obtain ⟨msg, hm⟩ := h
  intro f
  rw [hm]
  simp

/-- C7.  No core operation mutates state shared between requests: building
a provider request body (which applies caller overrides to the resolved
config) hands back the class-level globals unchanged, so a subsequent
resolution — of any reference, including an unparseable one — yields
exactly what it would have yielded before the first call. -/
theorem no_shared_state_between_requests (g : CoreGlobals) (prompt : String)
    (settings : Option GenerationSettings) (arn1 arn2 : String) :
    (prepareRequestBodyG g prompt settings arn1).2 = g ∧
    getConfigSrc ((prepareRequestBodyG g prompt settings arn1).2) arn2
      = getConfigSrc g arn2 := ⟨rfl, rfl⟩

/-- C8 (counterexample to the claim as stated).  `update_from_settings`
overwrites with the settings object's values field-by-field regardless of
what the caller explicitly set: settings carrying only a temperature (all
other fields pydantic defaults) reset the resolved claude-3-sonnet
`max_tokens` from 200000 to the default 2048, and the resolved
`stop_sequences` to `None`. -/
theorem settings_update_counterexample :
    (getConfig claudeSonnetArn).max_tokens = 200000 ∧
    (getConfig claudeSonnetArn).stop_sequences = some [] ∧
    ((getConfig claudeSonnetArn).update_from_settings
        { defaultGenerationSettings with temperature := 9/10 }).max_tokens = 2048 ∧
    ((getConfig claudeSonnetArn).update_from_settings
        { defaultGenerationSettings with temperature := 9/10 }).stop_sequences = none ∧
    (2048 : Nat) ≠ 200000 :=
  ⟨rfl, rfl, rfl, rfl, by decide⟩

/-- C8 (amended).  Applying caller-supplied generation settings overwrites
`temperature`, `top_p`, `top_k`, `max_tokens` and `stop_sequences` with the
settings object's values unconditionally (pydantic defaults included, since
the object does not record which fields were explicitly set); only
`guardrails` falls back to the config when the settings carry `None`, and
the identity fields (`model_id`, `provider`, `pricing`,
`supports_query_decomposition`) are untouched. -/
theorem settings_update_frame (c : KBModelConfig) (s : GenerationSettings) :
    (c.update_from_settings s).temperature = s.temperature ∧
    (c.update_from_settings s).top_p = s.top_p ∧
    (c.update_from_settings s).top_k = s.top_k ∧
    (c.update_from_settings s).max_tokens = s.max_tokens ∧
    (c.update_from_settings s).stop_sequences = s.stop_sequences ∧
    (c.update_from_settings s).guardrails = s.guardrails.getD c.guardrails ∧
    (c.update_from_settings s).model_id = c.model_id ∧
    (c.update_from_settings s).provider = c.provider ∧
    (c.update_from_settings s).pricing = c.pricing ∧
    (c.update_from_settings s).supports_query_decomposition
      = c.supports_query_decomposition :=
  ⟨rfl, rfl, rfl, rfl, rfl, rfl, rfl, rfl, rfl, rfl⟩

/-- C9 (counterexample to the claim as stated).  A Meta-provider response
body missing the expected `generation` field does not surface an error:
extraction silently returns the empty string. -/
theorem extraction_silent_empty_counterexample :
    extractGeneratedText (Json.obj []) (mkKBModelConfig "m" .meta)
      = .ok (.str "") := rfl

/-- C9 (amended).  Only the Anthropic path (`response_body["content"]`) and
the Amazon-Nova path (`response_body["output"]`) raise when the expected
field is missing; Meta, Cohere, Mistral, Amazon-Titan and unknown providers
use `.get`-with-default reads and silently return the empty string.
Request building never fails at all. -/
theorem extraction_failure_surfacing_amended :
    (∃ err, extractGeneratedText (Json.obj []) (mkKBModelConfig "m" .anthropic)
      = .error err) ∧
    (∃ err, extractGeneratedText (Json.obj []) (mkKBModelConfig "nova-pro-v1" .amazon)
      = .error err) ∧
    extractGeneratedText (Json.obj []) (mkKBModelConfig "m" .meta) = .ok (.str "") ∧
    extractGeneratedText (Json.obj []) (mkKBModelConfig "m" .cohere) = .ok (.str "") ∧
    extractGeneratedText (Json.obj []) (mkKBModelConfig "m" .mistral) = .ok (.str "") ∧
    extractGeneratedText (Json.obj [])
      (mkKBModelConfig "titan-text-premier-v1" .amazon) = .ok (.str "") ∧
    extractGeneratedText (Json.obj []) (mkKBModelConfig "m" .unknown) = .ok (.str "") ∧
    (∀ (p : String) (s : Option GenerationSettings) (a : String),
       ∃ b, prepareRequestBody p s a = .ok b) :=
  ⟨⟨_, rfl⟩, ⟨_, rfl⟩, rfl, rfl, rfl, rfl, rfl, fun _ _ _ => ⟨_, rfl⟩⟩

/-- One of the three structured Amazon/Bedrock usage layouts is present. -/
def amazonStructuredLayout (rb : Json) : Bool :=
  (ragMetricsLayout rb).isSome || (usageLayout rb).isSome
    || (responseMetadataLayout rb).isSome

/-- C10.  Whenever `get_token_usage` finds provider-reported usage through
one of the structured Amazon/Bedrock layouts
(`retrieveAndGenerateResponse.metrics`, a top-level `usage` object under
either key convention, or `responseMetadata.tokenUsage`), it returns with
`total_tokens` still at the initialised minimum 2 — those branches return
before the total is recomputed from `input_tokens + output_tokens`. -/
theorem structured_usage_total_stays_minimum (rb : Json) (p : String) (m : Option String)
    (hp : amazonDispatch (some p) = true)
    (hl : amazonStructuredLayout rb = true) :
    (get_token_usage rb (some p) m).total_tokens = 2 := by
  cases rb
  case obj kvs =>
    cases kvs with
    | nil =>
      simp [amazonStructuredLayout, ragMetricsLayout, usageLayout,
        responseMetadataLayout, Json.lookup, List.lookup] at hl
    | cons hd tl =>
      have htr : (Json.obj (hd :: tl)).pyTruthy = true := by simp [Json.pyTruthy]
      simp only [get_token_usage, htr, hp, if_true]
      rcases h1 : ragMetricsLayout (.obj (hd :: tl)) with _ | ⟨i, o⟩
      · rcases h2 : usageLayout (.obj (hd :: tl)) with _ | ⟨i2, o2⟩
        · rcases h3 : responseMetadataLayout (.obj (hd :: tl)) with _ | ⟨i3, o3⟩
          · exfalso
            simp [amazonStructuredLayout, h1, h2, h3] at hl
          · simp [h1, h2, h3]
        · simp [h1, h2]
      · simp [h1]
  all_goals
    simp [amazonStructuredLayout, ragMetricsLayout, usageLayout,
      responseMetadataLayout, Json.lookup] at hl

/-- A response body reporting 100 input and 200 output tokens through the
`retrieveAndGenerateResponse.metrics` layout. -/
def ragMetricsExample : Json :=
  .obj [("retrieveAndGenerateResponse", .obj [("metrics", .obj
    [("promptTokenCount", .int 100), ("completionTokenCount", .int 200)])])]

/-- C10 witness: with 100/200 reported tokens the returned total is 2, not
300. -/
theorem structured_usage_total_stays_minimum_witness :
    amazonDispatch (some "amazon") = true ∧
    amazonStructuredLayout ragMetricsExample = true ∧
    (get_token_usage ragMetricsExample (some "amazon") (some "model")).total_tokens = 2 ∧
    (get_token_usage ragMetricsExample (some "amazon") (some "model")).input_tokens = 100 ∧
    (get_token_usage ragMetricsExample (some "amazon") (some "model")).output_tokens = 200 ∧
    ((100 : Int) + 200 ≠ 2) :=
  ⟨by decide, by decide,
   structured_usage_total_stays_minimum ragMetricsExample "amazon" (some "model")
     (by decide) (by decide), by decide, by decide, by decide⟩
